/-
Verification of the SlideBanai backend configuration / logging / error-envelope
layer (apps/backend: config/settings.py, config/logging_config.py,
middleware/error_middleware.py, main.py).

Shallow embedding: Python classes become Lean structures, functions become
Lean functions.  Dictionaries preserving insertion order are association
lists `List (String × JVal)`.  The wall clock (`datetime.utcnow().isoformat()`)
is passed in as an explicit `now : String` argument; every other input of the
modelled functions is explicit as well.
-/
import Mathlib

set_option linter.unusedVariables false
set_option linter.unnecessarySeqFocus false

/-! # JSON values and `json.loads`

`settings.google_credentials_dict` calls `json.loads` on the configured
credential string, and pydantic-settings decodes complex-typed fields
(`CORS_ORIGINS : List[str]`) from their environment string as JSON.  We embed
the Python value universe and a total, fuel-driven parser for the `json.loads`
grammar: literals `null`, `true`, `false`, `NaN`, `Infinity`, `-Infinity` (the Python decoder
accepts the last three by default), numbers without leading zeros, strings
with the standard escapes and a strict ban on raw control characters, arrays
and objects.  Integer literals decode to `.int`; a literal with a fraction or
exponent decodes to a Python float, which we keep as its raw source text in
`.num` (no float arithmetic is ever performed on it). -/

inductive JVal where
  | null : JVal
  | bool : Bool → JVal
  | int : Int → JVal
  | num : String → JVal
  | str : String → JVal
  | arr : List JVal → JVal
  | obj : List (String × JVal) → JVal

/-- JSON insignificant whitespace (space, tab, newline, carriage return). -/
def jsonWs (c : Char) : Bool :=
  c = ' ' || c = '\t' || c = '\n' || c = '\r'

def jsonDigit (c : Char) : Bool :=
  '0' ≤ c && c ≤ '9'

def dropWs : List Char → List Char
  | [] => []
  | c :: cs => if jsonWs c then dropWs cs else c :: cs

def spanDigits : List Char → List Char × List Char
  | [] => ([], [])
  | c :: cs =>
    if jsonDigit c then
      let p := spanDigits cs
      (c :: p.1, p.2)
    else ([], c :: cs)

def digitsVal (ds : List Char) : Int :=
  ((ds.foldl (fun a c => a * 10 + (c.toNat - 48)) 0 : Nat) : Int)

def hexDigitVal (c : Char) : Option Nat :=
  if '0' ≤ c && c ≤ '9' then some (c.toNat - 48)
  else if 'a' ≤ c && c ≤ 'f' then some (c.toNat - 97 + 10)
  else if 'A' ≤ c && c ≤ 'F' then some (c.toNat - 65 + 10)
  else none

/-- Simple (single-character) string escapes of the JSON grammar. -/
def simpleEscape : Char → Option Char
  | '"' => some '"'
  | '\\' => some '\\'
  | '/' => some '/'
  | 'b' => some (Char.ofNat 8)
  | 'f' => some (Char.ofNat 12)
  | 'n' => some '\n'
  | 'r' => some '\r'
  | 't' => some '\t'
  | _ => none

/-- Body of a JSON string after the opening quote.  The Python decoder runs in
strict mode: a raw control character below U+0020 is an error. -/
def jsonStrBody (acc : List Char) : List Char → Option (String × List Char)
  | [] => none
  | '"' :: rest => some (String.mk acc.reverse, rest)
  | '\\' :: 'u' :: a :: b :: c :: d :: rest =>
    match hexDigitVal a, hexDigitVal b, hexDigitVal c, hexDigitVal d with
    | some va, some vb, some vc, some vd =>
      jsonStrBody (Char.ofNat (((va * 16 + vb) * 16 + vc) * 16 + vd) :: acc) rest
    | _, _, _, _ => none
  | '\\' :: e :: rest =>
    match simpleEscape e with
    | some ch => jsonStrBody (ch :: acc) rest
    | none => none
  | c :: rest =>
    if c.toNat < 32 then none else jsonStrBody (c :: acc) rest

/-- JSON number token: `-? (0 | [1-9][0-9]*) (. [0-9]+)? ([eE][+-]?[0-9]+)?`.
Returns the integer value for a pure integer literal, and the raw token text
for a float literal (fraction and/or exponent present). -/
def jsonNumber (cs : List Char) : Option (JVal × List Char) :=
  let neg : Bool := match cs with | '-' :: _ => true | _ => false
  let cs1 : List Char := if neg then cs.tail else cs
  match spanDigits cs1 with
  | ([], _) => none
  | (intDs, rest1) =>
    if intDs.length > 1 && intDs.headI = '0' then none
    else
      let fracPart : Option (List Char × List Char) :=
        match rest1 with
        | '.' :: r =>
          match spanDigits r with
          | ([], _) => none
          | (ds, r2) => some (ds, r2)
        | _ => some ([], rest1)
      match fracPart with
      | none => none
      | some (fracDs, rest2) =>
        let expPart : Option (List Char × List Char) :=
          match rest2 with
          | 'e' :: r | 'E' :: r =>
            let r1 : List Char :=
              match r with | '+' :: r2 => r2 | '-' :: r2 => r2 | _ => r
            match spanDigits r1 with
            | ([], _) => none
            | (ds, r2) => some (ds, r2)
          | _ => some ([], rest2)
        match expPart with
        | none => none
        | some (expDs, rest3) =>
          if fracDs.isEmpty && expDs.isEmpty then
            some (.int ((if neg then -1 else 1) * digitsVal intDs), rest3)
          else
            some (.num (String.mk (cs.take (cs.length - rest3.length))), rest3)

mutual

/-- One JSON value (fuel-driven; fuel is structural recursion's measure). -/
def jsonValue : Nat → List Char → Option (JVal × List Char)
  | 0, _ => none
  | fuel + 1, cs =>
    match dropWs cs with
    | 'n' :: 'u' :: 'l' :: 'l' :: r => some (.null, r)
    | 't' :: 'r' :: 'u' :: 'e' :: r => some (.bool true, r)
    | 'f' :: 'a' :: 'l' :: 's' :: 'e' :: r => some (.bool false, r)
    | 'N' :: 'a' :: 'N' :: r => some (.num "NaN", r)
    | 'I' :: 'n' :: 'f' :: 'i' :: 'n' :: 'i' :: 't' :: 'y' :: r =>
      some (.num "Infinity", r)
    | '-' :: 'I' :: 'n' :: 'f' :: 'i' :: 'n' :: 'i' :: 't' :: 'y' :: r =>
      some (.num "-Infinity", r)
    | '"' :: r =>
      match jsonStrBody [] r with
      | some (s, r2) => some (.str s, r2)
      | none => none
    | '[' :: r =>
      (match dropWs r with
       | ']' :: r2 => some (.arr [], r2)
       | r2 =>
         match jsonItems fuel r2 with
         | some (vs, r3) => some (.arr vs, r3)
         | none => none)
    | '\x7b' :: r =>
      (match dropWs r with
       | '\x7d' :: r2 => some (.obj [], r2)
       | r2 =>
         match jsonPairs fuel r2 with
         | some (ms, r3) => some (.obj ms, r3)
         | none => none)
    | c :: r =>
      if c = '-' || jsonDigit c then jsonNumber (c :: r) else none
    | [] => none

/-- One or more comma-separated array elements up to the closing bracket. -/
def jsonItems : Nat → List Char → Option (List JVal × List Char)
  | 0, _ => none
  | fuel + 1, cs =>
    match jsonValue fuel cs with
    | none => none
    | some (v, r) =>
      match dropWs r with
      | ',' :: r2 =>
        (match jsonItems fuel r2 with
         | some (vs, r3) => some (v :: vs, r3)
         | none => none)
      | ']' :: r2 => some ([v], r2)
      | _ => none

/-- One or more comma-separated `"key": value` members up to the closing
brace.  Keys must be strings; duplicate keys are accepted as in Python. -/
def jsonPairs : Nat → List Char → Option (List (String × JVal) × List Char)
  | 0, _ => none
  | fuel + 1, cs =>
    match dropWs cs with
    | '"' :: r =>
      (match jsonStrBody [] r with
       | none => none
       | some (k, r1) =>
         match dropWs r1 with
         | ':' :: r2 =>
           (match jsonValue fuel r2 with
            | none => none
            | some (v, r3) =>
              match dropWs r3 with
              | ',' :: r4 =>
                (match jsonPairs fuel r4 with
                 | some (ms, r5) => some ((k, v) :: ms, r5)
                 | none => none)
              | '\x7d' :: r4 => some ((k, v) :: [], r4)
              | _ => none)
         | _ => none)
    | _ => none

end

/-- `json.loads`: parse a complete document; anything but whitespace after the
value is an error.  `none` is the embedding of `json.JSONDecodeError`. -/
def jsonLoads (s : String) : Option JVal :=
  let cs := s.toList
  match jsonValue (2 * cs.length + 2) cs with
  | some (v, rest) => if dropWs rest = [] then some v else none
  | none => none

example : jsonLoads "\x7b\"a\": 1, \"b\": [true, null]\x7d" =
    some (.obj [("a", .int 1), ("b", .arr [.bool true, .null])]) := by rfl

example : jsonLoads "not json" = none := by rfl

example : jsonLoads " -12 " = some (.int (-12)) := by rfl

example : jsonLoads "1.5e3" = some (.num "1.5e3") := by rfl

example : jsonLoads "012" = none := by rfl

/-! # `config/settings.py`

Only the configuration fields read by the verified components are carried in
the `Settings` structure; the remaining fields of the Python class are scalars
with defaults that no claim mentions.  `Settings.fromEnv` embeds the
pydantic-settings construction performed once at process start
(`settings = Settings()`, case-sensitive): every required field must be
present in the environment; a `str`-typed field is taken verbatim with no
further validation; the `List[str]`-typed `CORS_ORIGINS` is decoded from its
environment string as JSON when it is set at all. -/

structure Settings where
  ENVIRONMENT : String
  SUPABASE_URL : String
  SUPABASE_ANON_KEY : String
  SUPABASE_SERVICE_ROLE_KEY : String
  OPENAI_API_KEY : String
  GOOGLE_SERVICE_ACCOUNT_KEY : String
  CORS_ORIGINS : List String
  LOG_LEVEL : String
  LOG_FORMAT : String

/-- Source default of `CORS_ORIGINS` (settings.py lines 86-90). -/
def defaultCorsOrigins : List String :=
  ["http://localhost:3000", "http://localhost:5173", "https://slidebanai.vercel.app"]

/-- A decoded JSON value usable for the `List[str]` field `CORS_ORIGINS`. -/
def decodeStrList : JVal → Option (List String)
  | .arr vs =>
    vs.foldr
      (fun v acc =>
        match v, acc with
        | .str s, some l => some (s :: l)
        | _, _ => none)
      (some [])
  | _ => none

/-- Look up a required environment variable, as pydantic field validation. -/
def requireEnv (env : List (String × String)) (key : String) : Except String String :=
  match List.lookup key env with
  | some v => .ok v
  | none => .error ("Field required: " ++ key)

/-- Decode the `List[str]` field from its environment string, when set. -/
def corsFromEnv (env : List (String × String)) : Except String (List String) :=
  match List.lookup "CORS_ORIGINS" env with
  | none => Except.ok defaultCorsOrigins
  | some raw =>
    match jsonLoads raw with
    | none => Except.error "error parsing value for field CORS_ORIGINS"
    | some v =>
      match decodeStrList v with
      | some l => Except.ok l
      | none => Except.error "error parsing value for field CORS_ORIGINS"

/-- `Settings()` as run at import time (settings.py line 145). -/
def Settings.fromEnv (env : List (String × String)) : Except String Settings :=
  match requireEnv env "SUPABASE_URL" with
  | Except.error e => Except.error e
  | Except.ok supabaseUrl =>
  match requireEnv env "SUPABASE_ANON_KEY" with
  | Except.error e => Except.error e
  | Except.ok supabaseAnon =>
  match requireEnv env "SUPABASE_SERVICE_ROLE_KEY" with
  | Except.error e => Except.error e
  | Except.ok supabaseRole =>
  match requireEnv env "OPENAI_API_KEY" with
  | Except.error e => Except.error e
  | Except.ok openaiKey =>
  match requireEnv env "GOOGLE_SERVICE_ACCOUNT_KEY" with
  | Except.error e => Except.error e
  | Except.ok googleKey =>
  match corsFromEnv env with
  | Except.error e => Except.error e
  | Except.ok cors =>
    Except.ok
      { ENVIRONMENT := (List.lookup "ENVIRONMENT" env).getD "development",
        SUPABASE_URL := supabaseUrl,
        SUPABASE_ANON_KEY := supabaseAnon,
        SUPABASE_SERVICE_ROLE_KEY := supabaseRole,
        OPENAI_API_KEY := openaiKey,
        GOOGLE_SERVICE_ACCOUNT_KEY := googleKey,
        CORS_ORIGINS := cors,
        LOG_LEVEL := (List.lookup "LOG_LEVEL" env).getD "INFO",
        LOG_FORMAT := (List.lookup "LOG_FORMAT" env).getD "json" }

/-- `Settings.google_credentials_dict` (settings.py lines 68-74): a lazy
`@property`, evaluated only when accessed, never during `Settings()`. -/
def google_credentials_dict (s : Settings) : Except String JVal :=
  match jsonLoads s.GOOGLE_SERVICE_ACCOUNT_KEY with
  | some v => Except.ok v
  | none => Except.error "Invalid GOOGLE_SERVICE_ACCOUNT_KEY JSON"

/-- The fixed production allow-list (settings.py lines 160-164). -/
def productionCorsOrigins : List String :=
  ["https://slidebanai.com", "https://www.slidebanai.com", "https://app.slidebanai.com"]

/-- `get_cors_origins()` (settings.py lines 152-166). -/
def get_cors_origins (s : Settings) : List String :=
  if s.ENVIRONMENT = "production" then productionCorsOrigins
  else s.CORS_ORIGINS

/-- `is_production()` (settings.py lines 169-171). -/
def is_production (s : Settings) : Bool :=
  s.ENVIRONMENT = "production"

/-- `is_development()` (settings.py lines 174-176). -/
def is_development (s : Settings) : Bool :=
  s.ENVIRONMENT = "development"

/-! # `middleware/error_middleware.py`

The error taxonomy and the response normalizer.  An exception's `details`
dict is an association list; the exception-class constructors become
functions returning the constructed `APIError` value.  Each Python optional
`details` parameter is an `Option`, and `details or \x7b\x7d` is
`detailsOrEmpty` (`None` and the falsy empty dict both give the empty dict).
Handlers take the wall-clock `isoformat()` string as `now`. -/

structure APIError where
  message : String
  code : String
  status_code : Nat
  details : List (String × JVal)

/-- `details or \x7b\x7d` (error_middleware.py line 32 and line 145). -/
def detailsOrEmpty : Option (List (String × JVal)) → List (String × JVal)
  | none => []
  | some l => l

/-- `APIError.__init__` (lines 22-33).  The Python defaults are
`code="INTERNAL_SERVER_ERROR"`, `status_code=500`, `details=None`. -/
def APIError.make (message : String) (code : String) (status_code : Nat)
    (details : Option (List (String × JVal))) : APIError :=
  { message := message, code := code, status_code := status_code,
    details := detailsOrEmpty details }

/-- `ValidationException` (lines 36-45). -/
def ValidationException (message : String)
    (details : Option (List (String × JVal))) : APIError :=
  APIError.make message "VALIDATION_ERROR" 400 details

/-- `AuthenticationException` (lines 48-56); default message
`"Authentication required"`. -/
def AuthenticationException (message : String) : APIError :=
  APIError.make message "AUTHENTICATION_ERROR" 401 none

/-- `AuthorizationException` (lines 59-67); default message
`"Insufficient permissions"`. -/
def AuthorizationException (message : String) : APIError :=
  APIError.make message "AUTHORIZATION_ERROR" 403 none

/-- The `Union[int, str]` resource identifier of `NotFoundException`. -/
inductive ResId where
  | int : Int → ResId
  | str : String → ResId

/-- Python truthiness of a resource identifier: `0` and `""` are falsy. -/
def ResId.truthy : ResId → Bool
  | .int n => n ≠ 0
  | .str s => s ≠ ""

/-- Python `str()` of a resource identifier, as interpolated in f-strings. -/
def ResId.render : ResId → String
  | .int n => toString n
  | .str s => s

/-- `NotFoundException` (lines 70-82).  `resource_id` defaults to `None`; the
suffix is appended under `if resource_id:`, i.e. only when it is truthy. -/
def NotFoundException (resource : String) (resource_id : Option ResId) : APIError :=
  let message := resource ++ " not found"
  let message :=
    match resource_id with
    | some rid => if rid.truthy then message ++ " (id: " ++ rid.render ++ ")" else message
    | none => message
  APIError.make message "NOT_FOUND" 404 none

/-- `ConflictException` (lines 85-94). -/
def ConflictException (message : String)
    (details : Option (List (String × JVal))) : APIError :=
  APIError.make message "CONFLICT" 409 details

/-- `RateLimitException` (lines 97-105); default message
`"Rate limit exceeded"`. -/
def RateLimitException (message : String) : APIError :=
  APIError.make message "RATE_LIMIT_EXCEEDED" 429 none

/-- `ExternalServiceException` (lines 108-117). -/
def ExternalServiceException (service : String) (message : String) : APIError :=
  APIError.make (service ++ " error: " ++ message) "EXTERNAL_SERVICE_ERROR" 503
    (some [("service", JVal.str service)])

/-- `InsufficientCreditsException` (lines 120-129). -/
def InsufficientCreditsException (required : Int) (available : Int) : APIError :=
  APIError.make
    ("Insufficient credits (required: " ++ toString required ++
      ", available: " ++ toString available ++ ")")
    "INSUFFICIENT_CREDITS" 402
    (some [("required", JVal.int required), ("available", JVal.int available)])

/-- The inner `error` object of the wire envelope. -/
structure ErrorBody where
  code : String
  message : String
  details : JVal
  timestamp : String

/-- A `JSONResponse`: HTTP status plus the envelope content. -/
structure ErrorResponse where
  status_code : Nat
  error : ErrorBody

/-- `create_error_response` (lines 132-149).  `now` stands for
`datetime.utcnow().isoformat()` at response-construction time. -/
def create_error_response (code : String) (message : String) (status_code : Nat)
    (details : Option (List (String × JVal))) (now : String) : ErrorResponse :=
  { status_code := status_code,
    error :=
      { code := code, message := message,
        details := JVal.obj (detailsOrEmpty details),
        timestamp := now ++ "Z" } }

/-- `api_error_handler` (lines 159-172).  The `logger.error` call is a
side effect outside the response value. -/
def api_error_handler (exc : APIError) (now : String) : ErrorResponse :=
  create_error_response exc.code exc.message exc.status_code (some exc.details) now

/-- One component of a pydantic error location path (strings and ints). -/
inductive LocItem where
  | str : String → LocItem
  | int : Int → LocItem

/-- Python `str(loc)` for a location component. -/
def LocItem.render : LocItem → String
  | .str s => s
  | .int n => toString n

/-- One entry of `RequestValidationError.errors()`. -/
structure FieldError where
  loc : List LocItem
  msg : String
  type : String

/-- The per-error dict built at lines 179-183 of the handler. -/
def fieldErrorEntry (e : FieldError) : JVal :=
  JVal.obj
    [("field", JVal.str (String.intercalate "." (e.loc.map LocItem.render))),
     ("message", JVal.str e.msg),
     ("type", JVal.str e.type)]

/-- `validation_error_handler` (lines 174-192); `excErrors` is
`exc.errors()`. -/
def validation_error_handler (excErrors : List FieldError) (now : String) : ErrorResponse :=
  let errors := excErrors.map fieldErrorEntry
  create_error_response "VALIDATION_ERROR" "Request validation failed" 400
    (some [("errors", JVal.arr errors)]) now

/-- `generic_error_handler` (lines 194-210); `excText` is `str(exc)` and `s`
is the imported `settings` singleton. -/
def generic_error_handler (s : Settings) (excText : String) (now : String) : ErrorResponse :=
  let message := if s.ENVIRONMENT = "production" then "An internal error occurred" else excText
  create_error_response "INTERNAL_SERVER_ERROR" message 500 none now

/-! # `config/logging_config.py`

A log record carries the attributes the formatter inspects; attributes that
Python code may or may not have set (`exc_info` and the extras probed with
`hasattr`) are `Option`s.  `JSONFormatter.format` returns the insertion-
ordered dict handed to `json.dumps`; the claims are about which keys that
object holds, and `json.dumps` is a bijection on these flat objects.
`setup_logging` is a transition on the process logging state. -/

structure LogRecord where
  levelname : String
  name : String
  message : String
  exc_info : Option String
  user_id : Option JVal
  request_id : Option JVal
  duration_ms : Option JVal

namespace JSONFormatter

/-- `JSONFormatter.format` (logging_config.py lines 24-47).  `record.message`
is the rendered `record.getMessage()`, and the `exc_info` option carries the
already formatted exception text of `self.formatException`. -/
def format (record : LogRecord) (now : String) : List (String × JVal) :=
  [("timestamp", JVal.str (now ++ "Z")),
   ("level", JVal.str record.levelname),
   ("logger", JVal.str record.name),
   ("message", JVal.str record.message)]
  ++ (match record.exc_info with | some e => [("exception", JVal.str e)] | none => [])
  ++ (match record.user_id with | some v => [("user_id", v)] | none => [])
  ++ (match record.request_id with | some v => [("request_id", v)] | none => [])
  ++ (match record.duration_ms with | some v => [("duration_ms", v)] | none => [])

end JSONFormatter

inductive FormatterKind where
  | jsonFormatter : FormatterKind
  | textFormatter : String → String → FormatterKind

/-- The output sink of a `StreamHandler`. -/
inductive OutStream where
  | stdout : OutStream
  | stderr : OutStream

structure Handler where
  stream : OutStream
  formatter : FormatterKind

/-- The process-wide logging state touched by `setup_logging`: the root
logger plus the three third-party loggers it adjusts. -/
structure LoggingState where
  rootLevel : Nat
  rootHandlers : List Handler
  httpxLevel : Nat
  httpcoreLevel : Nat
  openaiLevel : Nat

/-- The numeric level attributes of the `logging` module. -/
def logLevelNames : List (String × Nat) :=
  [("CRITICAL", 50), ("FATAL", 50), ("ERROR", 40), ("WARNING", 30),
   ("WARN", 30), ("INFO", 20), ("DEBUG", 10), ("NOTSET", 0)]

/-- `getattr(logging, settings.LOG_LEVEL.upper(), logging.INFO)`: an
unrecognized name falls back to `logging.INFO` (20). -/
def parseLogLevel (s : String) : Nat :=
  (List.lookup s.toUpper logLevelNames).getD 20

/-- `setup_logging` (logging_config.py lines 50-86): build the single stdout
handler with the configured formatter, set the root level, clear the root
handler list (`root_logger.handlers = []`) and attach the new handler, then
quiet the three third-party loggers.  The final `logger.info` startup line is
a side effect outside the state. -/
def setup_logging (s : Settings) (st : LoggingState) : LoggingState :=
  let log_level := parseLogLevel s.LOG_LEVEL
  let formatter : FormatterKind :=
    if s.LOG_FORMAT = "json" then FormatterKind.jsonFormatter
    else
      FormatterKind.textFormatter "%(asctime)s - %(name)s - %(levelname)s - %(message)s"
        "%Y-%m-%d %H:%M:%S"
  let handler : Handler := { stream := OutStream.stdout, formatter := formatter }
  let cleared : List Handler := []
  { rootLevel := log_level,
    rootHandlers := cleared ++ [handler],
    httpxLevel := 30,
    httpcoreLevel := 30,
    openaiLevel := 20 }

/-- Lines written to the root handlers when one record is emitted at a level
at or above the root level: one line per attached handler. -/
def emittedLines (st : LoggingState) : Nat :=
  st.rootHandlers.length

/-! # `main.py`

The application's CORS middleware registration (main.py lines 89-96) passes
`allow_origins=settings.CORS_ORIGINS` — the raw configured field, not
`get_cors_origins()`. -/

/-- The origin list handed to `CORSMiddleware` in `main.py` line 91. -/
def appCorsAllowOrigins (s : Settings) : List String :=
  s.CORS_ORIGINS

/-! # Shared concrete fixtures for witnesses and counterexamples -/

/-- A settings snapshot with `ENVIRONMENT = "production"` and the source
default development `CORS_ORIGINS`. -/
def sampleProdSettings : Settings :=
  { ENVIRONMENT := "production",
    SUPABASE_URL := "https://proj.supabase.co",
    SUPABASE_ANON_KEY := "anon-key",
    SUPABASE_SERVICE_ROLE_KEY := "role-key",
    OPENAI_API_KEY := "sk-test",
    GOOGLE_SERVICE_ACCOUNT_KEY := "\x7b\x7d",
    CORS_ORIGINS := defaultCorsOrigins,
    LOG_LEVEL := "INFO",
    LOG_FORMAT := "json" }

/-- A settings snapshot with `ENVIRONMENT = "development"`. -/
def sampleDevSettings : Settings :=
  { sampleProdSettings with ENVIRONMENT := "development" }

/-- An environment whose `GOOGLE_SERVICE_ACCOUNT_KEY` is not valid JSON. -/
def badGoogleEnv : List (String × String) :=
  [("SUPABASE_URL", "https://proj.supabase.co"),
   ("SUPABASE_ANON_KEY", "anon-key"),
   ("SUPABASE_SERVICE_ROLE_KEY", "role-key"),
   ("OPENAI_API_KEY", "sk-test"),
   ("GOOGLE_SERVICE_ACCOUNT_KEY", "not json")]

/-- The settings value `Settings(...)` builds from `badGoogleEnv`. -/
def badGoogleSettings : Settings :=
  { ENVIRONMENT := "development",
    SUPABASE_URL := "https://proj.supabase.co",
    SUPABASE_ANON_KEY := "anon-key",
    SUPABASE_SERVICE_ROLE_KEY := "role-key",
    OPENAI_API_KEY := "sk-test",
    GOOGLE_SERVICE_ACCOUNT_KEY := "not json",
    CORS_ORIGINS := defaultCorsOrigins,
    LOG_LEVEL := "INFO",
    LOG_FORMAT := "json" }

/-! # Claims -/

/-- Claim C1: for every typed API error (any `APIError` value), the registered
handler returns the canonical envelope whose code, message, details and HTTP
status are exactly those carried by the error, with the timestamp appended a
trailing `Z`; in particular `InsufficientCreditsException(required=10,
available=3)` yields status 402, code `INSUFFICIENT_CREDITS`, a message
containing both numbers, and details `\x7b"required": 10, "available": 3\x7d`. -/
theorem C1_api_error_handler_envelope :
    (∀ (exc : APIError) (now : String),
      (api_error_handler exc now).status_code = exc.status_code ∧
      (api_error_handler exc now).error.code = exc.code ∧
      (api_error_handler exc now).error.message = exc.message ∧
      (api_error_handler exc now).error.details = JVal.obj exc.details ∧
      (api_error_handler exc now).error.timestamp = now ++ "Z") ∧
    (∀ now : String,
      (api_error_handler (InsufficientCreditsException 10 3) now).status_code = 402 ∧
      (api_error_handler (InsufficientCreditsException 10 3) now).error.code =
        "INSUFFICIENT_CREDITS" ∧
      List.IsInfix "10".toList
        (api_error_handler (InsufficientCreditsException 10 3) now).error.message.toList ∧
      List.IsInfix "3".toList
        (api_error_handler (InsufficientCreditsException 10 3) now).error.message.toList ∧
      (api_error_handler (InsufficientCreditsException 10 3) now).error.details =
        JVal.obj [("required", JVal.int 10), ("available", JVal.int 3)]) := by
  refine ⟨fun exc now => ⟨rfl, rfl, rfl, rfl, rfl⟩, fun now => ⟨rfl, rfl, ?_, ?_, rfl⟩⟩
  · exact (by decide :
      List.IsInfix "10".toList "Insufficient credits (required: 10, available: 3)".toList)
  · exact (by decide :
      List.IsInfix "3".toList "Insufficient credits (required: 10, available: 3)".toList)

/-- Claim C2: every unhandled generic exception gets status 500 and code
`INTERNAL_SERVER_ERROR`; in production the message is the fixed string
`"An internal error occurred"` and the whole response is independent of the
exception text, while in any other environment the message is the
stringified exception text. -/
theorem C2_generic_handler_production_redaction :
    ∀ (s : Settings) (excText now : String),
      (generic_error_handler s excText now).status_code = 500 ∧
      (generic_error_handler s excText now).error.code = "INTERNAL_SERVER_ERROR" ∧
      (s.ENVIRONMENT = "production" →
        (generic_error_handler s excText now).error.message = "An internal error occurred" ∧
        ∀ otherText : String,
          generic_error_handler s excText now = generic_error_handler s otherText now) ∧
      (s.ENVIRONMENT ≠ "production" →
        (generic_error_handler s excText now).error.message = excText) := by
  intro s excText now
  refine ⟨rfl, rfl, fun hp => ⟨?_, fun otherText => ?_⟩, fun hnp => ?_⟩
  · simp [generic_error_handler, create_error_response, hp]
  · simp [generic_error_handler, create_error_response, hp]
  · simp [generic_error_handler, create_error_response, hnp]

/-- Witness for C2 at concrete inputs: the production response hides the
exception text (and equals the response for a different text), while the
development response exposes it. -/
theorem C2_generic_handler_production_redaction_witness :
    (generic_error_handler sampleProdSettings "secret detail" "T").error.message =
      "An internal error occurred" ∧
    generic_error_handler sampleProdSettings "secret detail" "T" =
      generic_error_handler sampleProdSettings "other detail" "T" ∧
    (generic_error_handler sampleDevSettings "boom" "T").error.message = "boom" :=
  ⟨((C2_generic_handler_production_redaction sampleProdSettings "secret detail" "T").2.2.1
      rfl).1,
   ((C2_generic_handler_production_redaction sampleProdSettings "secret detail" "T").2.2.1
      rfl).2 "other detail",
   (C2_generic_handler_production_redaction sampleDevSettings "boom" "T").2.2.2
      (by decide)⟩

/-- Claim C3: every request-validation failure yields status 400, code
`VALIDATION_ERROR`, and `details.errors` with one `\x7bfield, message,
type\x7d` entry per underlying field error, the `field` being the location
path joined with dots; a failure with two field errors yields an `errors`
list of length 2. -/
theorem C3_validation_handler_envelope :
    (∀ (excErrors : List FieldError) (now : String),
      (validation_error_handler excErrors now).status_code = 400 ∧
      (validation_error_handler excErrors now).error.code = "VALIDATION_ERROR" ∧
      (validation_error_handler excErrors now).error.details =
        JVal.obj [("errors", JVal.arr (excErrors.map fieldErrorEntry))] ∧
      (excErrors.map fieldErrorEntry).length = excErrors.length ∧
      ∀ e ∈ excErrors,
        fieldErrorEntry e =
          JVal.obj
            [("field", JVal.str (String.intercalate "." (e.loc.map LocItem.render))),
             ("message", JVal.str e.msg),
             ("type", JVal.str e.type)]) ∧
    (∀ now : String,
      (validation_error_handler
          [{ loc := [LocItem.str "body", LocItem.str "title"],
             msg := "Field required", type := "missing" },
           { loc := [LocItem.str "body", LocItem.int 0, LocItem.str "count"],
             msg := "value is not a valid integer", type := "int_type" }]
          now).error.details =
        JVal.obj
          [("errors",
            JVal.arr
              [JVal.obj
                 [("field", JVal.str "body.title"),
                  ("message", JVal.str "Field required"),
                  ("type", JVal.str "missing")],
               JVal.obj
                 [("field", JVal.str "body.0.count"),
                  ("message", JVal.str "value is not a valid integer"),
                  ("type", JVal.str "int_type")]])]) := by
  refine ⟨fun excErrors now =>
    ⟨rfl, rfl, rfl, excErrors.length_map fieldErrorEntry, fun e he => rfl⟩,
    fun now => ?_⟩
  rfl

/-- Claim C4 as written is false at `NotFoundException("Deck", 0)`: the
identifier `0` is supplied, yet the Python truthiness test `if resource_id:`
skips the suffix, so the message is `"Deck not found"`, not
`"Deck not found (id: 0)"`. -/
theorem C4_counterexample_zero_id :
    (NotFoundException "Deck" (some (ResId.int 0))).message = "Deck not found" ∧
    ¬ (NotFoundException "Deck" (some (ResId.int 0))).message = "Deck not found (id: 0)" := by
  exact ⟨rfl, by decide⟩

/-- Claim C4 (amended): `NotFoundException(resource, resource_id)` always has
status 404 and code `NOT_FOUND`; its message is `"<resource> not found"` with
the suffix `" (id: <resource_id>)"` appended exactly when the supplied
identifier is truthy (a nonzero integer or nonempty string); a falsy
identifier (`0` or `""`) or no identifier yields no suffix.
`NotFoundException("Deck", 42)` has message `"Deck not found (id: 42)"`. -/
theorem C4_not_found_message :
    ∀ resource : String,
      (∀ rid : Option ResId,
        (NotFoundException resource rid).status_code = 404 ∧
        (NotFoundException resource rid).code = "NOT_FOUND") ∧
      (∀ rid : ResId, rid.truthy = true →
        (NotFoundException resource (some rid)).message =
          resource ++ " not found" ++ " (id: " ++ rid.render ++ ")") ∧
      (∀ rid : ResId, rid.truthy = false →
        (NotFoundException resource (some rid)).message = resource ++ " not found") ∧
      (NotFoundException resource none).message = resource ++ " not found" ∧
      (NotFoundException "Deck" (some (ResId.int 42))).message = "Deck not found (id: 42)" := by
  intro resource
  refine ⟨fun rid => ⟨rfl, rfl⟩, fun rid ht => ?_, fun rid hf => ?_, rfl, rfl⟩
  · simp [NotFoundException, APIError.make, ht]
  · simp [NotFoundException, APIError.make, hf]

/-- Witness for C4 (amended) at concrete identifiers: truthy `42` gets the
suffix, falsy `""` and a missing identifier do not. -/
theorem C4_not_found_message_witness :
    (NotFoundException "Deck" (some (ResId.int 42))).message = "Deck not found (id: 42)" ∧
    (NotFoundException "Widget" (some (ResId.str ""))).message = "Widget not found" ∧
    (NotFoundException "User" none).message = "User not found" :=
  ⟨((C4_not_found_message "Deck").2.1 (ResId.int 42) (by decide)).trans (by decide),
   ((C4_not_found_message "Widget").2.2.1 (ResId.str "") (by decide)).trans (by decide),
   ((C4_not_found_message "User").2.2.2.1).trans (by decide)⟩

/-- Claim C5 as written is false: a malformed `GOOGLE_SERVICE_ACCOUNT_KEY`
does not fail process startup.  `Settings()` succeeds on an environment whose
key is the non-JSON string `"not json"` (the field is typed `str`, so
pydantic accepts it verbatim); only the later access of the lazy property
`google_credentials_dict` raises. -/
theorem C5_counterexample_startup_accepts_bad_json :
    Settings.fromEnv badGoogleEnv = Except.ok badGoogleSettings ∧
    google_credentials_dict badGoogleSettings =
      Except.error "Invalid GOOGLE_SERVICE_ACCOUNT_KEY JSON" :=
  ⟨rfl, rfl⟩

/-- Claim C5 (amended): startup stores the configured
`GOOGLE_SERVICE_ACCOUNT_KEY` string verbatim without validating it as JSON;
the derived accessor `google_credentials_dict` parses it on access, returning
the parsed structured value for well-formed JSON and raising the descriptive
configuration error `"Invalid GOOGLE_SERVICE_ACCOUNT_KEY JSON"` if and only
if the JSON is malformed. -/
theorem C5_google_key_parsed_on_access :
    (∀ (env : List (String × String)) (s : Settings),
      Settings.fromEnv env = Except.ok s →
        List.lookup "GOOGLE_SERVICE_ACCOUNT_KEY" env = some s.GOOGLE_SERVICE_ACCOUNT_KEY) ∧
    (∀ (s : Settings) (v : JVal),
      jsonLoads s.GOOGLE_SERVICE_ACCOUNT_KEY = some v →
        google_credentials_dict s = Except.ok v) ∧
    (∀ s : Settings,
      jsonLoads s.GOOGLE_SERVICE_ACCOUNT_KEY = none →
        google_credentials_dict s = Except.error "Invalid GOOGLE_SERVICE_ACCOUNT_KEY JSON") := by
  refine ⟨fun env s h => ?_, fun s v h => ?_, fun s h => ?_⟩
  · rcases h1 : List.lookup "SUPABASE_URL" env with _ | v1 <;>
    rcases h2 : List.lookup "SUPABASE_ANON_KEY" env with _ | v2 <;>
    rcases h3 : List.lookup "SUPABASE_SERVICE_ROLE_KEY" env with _ | v3 <;>
    rcases h4 : List.lookup "OPENAI_API_KEY" env with _ | v4 <;>
    rcases h5 : List.lookup "GOOGLE_SERVICE_ACCOUNT_KEY" env with _ | v5 <;>
    rcases h6 : corsFromEnv env with e6 | v6 <;>
      simp [Settings.fromEnv, requireEnv, h1, h2, h3, h4, h5, h6] at h <;>
      (try subst h) <;> simp_all
  · simp [google_credentials_dict, h]
  · simp [google_credentials_dict, h]

/-- Witness for C5 (amended) at concrete inputs: the bad-JSON environment
carries its key into the settings verbatim, a well-formed key parses to the
empty object, and the malformed key fails with the descriptive error. -/
theorem C5_google_key_parsed_on_access_witness :
    List.lookup "GOOGLE_SERVICE_ACCOUNT_KEY" badGoogleEnv = some "not json" ∧
    google_credentials_dict sampleProdSettings = Except.ok (JVal.obj []) ∧
    google_credentials_dict badGoogleSettings =
      Except.error "Invalid GOOGLE_SERVICE_ACCOUNT_KEY JSON" :=
  ⟨C5_google_key_parsed_on_access.1 badGoogleEnv badGoogleSettings (by rfl),
   C5_google_key_parsed_on_access.2.1 sampleProdSettings (JVal.obj []) (by rfl),
   C5_google_key_parsed_on_access.2.2 badGoogleSettings (by rfl)⟩

/-- Claim C6: `get_cors_origins()` returns the fixed three-element production
allow-list whenever `ENVIRONMENT = "production"`, regardless of the
configured `CORS_ORIGINS`, and returns the configured `CORS_ORIGINS` for
every other environment value. -/
theorem C6_get_cors_origins_by_environment :
    ∀ s : Settings,
      (s.ENVIRONMENT = "production" →
        get_cors_origins s =
          ["https://slidebanai.com", "https://www.slidebanai.com",
           "https://app.slidebanai.com"]) ∧
      (s.ENVIRONMENT ≠ "production" → get_cors_origins s = s.CORS_ORIGINS) := by
  intro s
  refine ⟨fun hp => ?_, fun hnp => ?_⟩
  · simp [get_cors_origins, productionCorsOrigins, hp]
  · simp [get_cors_origins, hnp]

/-- Witness for C6: the production snapshot (configured with the development
list) still yields the fixed allow-list; the development snapshot yields its
configured list. -/
theorem C6_get_cors_origins_by_environment_witness :
    get_cors_origins sampleProdSettings =
      ["https://slidebanai.com", "https://www.slidebanai.com",
       "https://app.slidebanai.com"] ∧
    sampleProdSettings.CORS_ORIGINS ≠ productionCorsOrigins ∧
    get_cors_origins sampleDevSettings = sampleDevSettings.CORS_ORIGINS :=
  ⟨(C6_get_cors_origins_by_environment sampleProdSettings).1 rfl,
   by decide,
   (C6_get_cors_origins_by_environment sampleDevSettings).2 (by decide)⟩

/-- Claim C7: the JSON formatter emits exactly the four base keys
(`timestamp` with trailing `Z`, `level`, `logger`, `message`) plus each of
`exception`, `user_id`, `request_id`, `duration_ms` exactly when the
corresponding attribute is present on the record; an absent attribute
produces no key at all (never a null value). -/
theorem C7_json_formatter_key_presence :
    ∀ (record : LogRecord) (now : String),
      (JSONFormatter.format record now).map Prod.fst =
        ["timestamp", "level", "logger", "message"]
          ++ (if record.exc_info.isSome then ["exception"] else [])
          ++ (if record.user_id.isSome then ["user_id"] else [])
          ++ (if record.request_id.isSome then ["request_id"] else [])
          ++ (if record.duration_ms.isSome then ["duration_ms"] else []) ∧
      List.lookup "timestamp" (JSONFormatter.format record now) =
        some (JVal.str (now ++ "Z")) ∧
      List.lookup "level" (JSONFormatter.format record now) =
        some (JVal.str record.levelname) ∧
      List.lookup "logger" (JSONFormatter.format record now) =
        some (JVal.str record.name) ∧
      List.lookup "message" (JSONFormatter.format record now) =
        some (JVal.str record.message) ∧
      List.lookup "exception" (JSONFormatter.format record now) =
        record.exc_info.map JVal.str ∧
      List.lookup "user_id" (JSONFormatter.format record now) = record.user_id ∧
      List.lookup "request_id" (JSONFormatter.format record now) = record.request_id ∧
      List.lookup "duration_ms" (JSONFormatter.format record now) = record.duration_ms := by
  intro record now
  rcases record with ⟨levelname, name, message, exc, uid, reqId, dur⟩
  cases exc <;> cases uid <;> cases reqId <;> cases dur <;>
    simp +decide [JSONFormatter.format, List.lookup]

/-- Claim C8: `setup_logging` clears previously attached root handlers and
installs exactly one stdout handler, so any positive number of consecutive
calls leaves the root logger with exactly one handler and one logged message
produces exactly one output line. -/
theorem C8_setup_logging_single_handler :
    ∀ (s : Settings) (st : LoggingState) (n : Nat), 0 < n →
      ((setup_logging s)^[n] st).rootHandlers = (setup_logging s st).rootHandlers ∧
      ((setup_logging s)^[n] st).rootHandlers.length = 1 ∧
      (∀ h ∈ ((setup_logging s)^[n] st).rootHandlers, h.stream = OutStream.stdout) ∧
      emittedLines ((setup_logging s)^[n] st) = 1 := by
  intro s st n hn
  obtain ⟨m, rfl⟩ : ∃ m, n = m + 1 := ⟨n - 1, (Nat.succ_pred_eq_of_pos hn).symm⟩
  rw [Function.iterate_succ_apply']
  refine ⟨rfl, rfl, ?_, rfl⟩
  intro h hmem
  simp [setup_logging] at hmem
  simp [hmem]

/-- A logging state with two stale handlers, as before a repeated setup. -/
def messyLoggingState : LoggingState :=
  { rootLevel := 0,
    rootHandlers :=
      [{ stream := OutStream.stderr, formatter := FormatterKind.jsonFormatter },
       { stream := OutStream.stderr, formatter := FormatterKind.jsonFormatter }],
    httpxLevel := 0, httpcoreLevel := 0, openaiLevel := 0 }

/-- Witness for C8: two consecutive calls starting from a state with two
stale handlers leave exactly one handler and one emitted line per message. -/
theorem C8_setup_logging_single_handler_witness :
    ((setup_logging sampleDevSettings)^[2] messyLoggingState).rootHandlers.length = 1 ∧
    emittedLines ((setup_logging sampleDevSettings)^[2] messyLoggingState) = 1 :=
  ⟨(C8_setup_logging_single_handler sampleDevSettings messyLoggingState 2 (by decide)).2.1,
   (C8_setup_logging_single_handler sampleDevSettings messyLoggingState 2
      (by decide)).2.2.2⟩

/-- Claim C9: the application registers its CORS middleware with the raw
`settings.CORS_ORIGINS` rather than `get_cors_origins()`, so the allowed
origins equal the configured list in every environment; in production (with
any configured list other than the fixed allow-list) the environment-aware
restriction is therefore not applied to the app. -/
theorem C9_app_cors_ignores_environment :
    ∀ s : Settings,
      appCorsAllowOrigins s = s.CORS_ORIGINS ∧
      (s.ENVIRONMENT ≠ "production" → appCorsAllowOrigins s = get_cors_origins s) ∧
      (s.ENVIRONMENT = "production" → s.CORS_ORIGINS ≠ productionCorsOrigins →
        appCorsAllowOrigins s ≠ get_cors_origins s) := by
  intro s
  refine ⟨rfl, fun hnp => ?_, fun hp hne => ?_⟩
  · simp [appCorsAllowOrigins, get_cors_origins, hnp]
  · simp only [appCorsAllowOrigins, get_cors_origins, hp, if_pos]
    exact hne

/-- Witness for C9: the production snapshot keeps its configured development
origins in the app while `get_cors_origins` would restrict them; the
development snapshot agrees with `get_cors_origins`. -/
theorem C9_app_cors_ignores_environment_witness :
    appCorsAllowOrigins sampleProdSettings ≠ get_cors_origins sampleProdSettings ∧
    appCorsAllowOrigins sampleDevSettings = get_cors_origins sampleDevSettings :=
  ⟨(C9_app_cors_ignores_environment sampleProdSettings).2.2 rfl (by decide),
   (C9_app_cors_ignores_environment sampleDevSettings).2.1 (by decide)⟩

/-- Claim C10: every envelope built by `create_error_response` carries a
dictionary `details` — the empty dictionary when none were supplied, never
null and never absent — and an `APIError` constructed without explicit
details carries the empty dictionary. -/
theorem C10_details_always_dict :
    (∀ (code message : String) (status_code : Nat)
        (details : Option (List (String × JVal))) (now : String),
      (create_error_response code message status_code details now).error.details ≠
        JVal.null ∧
      (details = none →
        (create_error_response code message status_code details now).error.details =
          JVal.obj []) ∧
      (∀ l, details = some l →
        (create_error_response code message status_code details now).error.details =
          JVal.obj l)) ∧
    (∀ (message code : String) (status_code : Nat),
      (APIError.make message code status_code none).details = []) := by
  refine ⟨fun code message sc details now => ⟨?_, fun hd => ?_, fun l hd => ?_⟩,
    fun message code sc => rfl⟩
  · cases details <;> simp [create_error_response, detailsOrEmpty]
  · subst hd; rfl
  · subst hd; rfl

/-- Witness for C10 at concrete envelopes: no supplied details gives the
empty dictionary, supplied details pass through, and a detail-less
`APIError` carries the empty dictionary. -/
theorem C10_details_always_dict_witness :
    (create_error_response "CONFLICT" "m" 409 none "T").error.details = JVal.obj [] ∧
    (create_error_response "CONFLICT" "m" 409 (some [("k", JVal.int 1)]) "T").error.details =
      JVal.obj [("k", JVal.int 1)] ∧
    (APIError.make "m" "CONFLICT" 409 none).details = [] :=
  ⟨(C10_details_always_dict.1 "CONFLICT" "m" 409 none "T").2.1 rfl,
   (C10_details_always_dict.1 "CONFLICT" "m" 409 (some [("k", JVal.int 1)]) "T").2.2
      [("k", JVal.int 1)] rfl,
   C10_details_always_dict.2 "m" "CONFLICT" 409⟩
